import Mathlib

/-!
Shallow embedding of `src/values.rs` of rust-puzzlefighter: the coordinate,
identity and orientation model of a two-block falling-piece puzzle game.

Modelling conventions:
- The Rust `i8` grid coordinates are embedded as `Int` together with an
  explicit two's-complement wrap `i8wrap` applied by the arithmetic that the
  source performs on them (release-mode Rust semantics); `i8range` states
  membership in the representable interval [-128, 127].
- `Uuid::new_v4()` draws a fresh process-unique identity token; the token
  supply is embedded as a `Nat` counter threaded through construction, so two
  successive constructions receive distinct tokens (the spec treats the
  identity space as collision-free).
- The random draws inside `Piece::rand` (two colors, two weighted coin flips)
  are embedded as explicit parameters: the property of interest is what the
  constructor does with the drawn values, not the distribution.
-/

namespace PuzzleFighter

/-- Two's-complement wrap of an integer into the `i8` range [-128, 127]. -/
def i8wrap (n : Int) : Int := (n + 128) % 256 - 128

/-- Membership in the `i8` range [-128, 127]. -/
def i8range (n : Int) : Prop := -128 ≤ n ∧ n ≤ 127

instance (n : Int) : Decidable (i8range n) := by
  unfold i8range
  infer_instance

theorem i8wrap_mem (n : Int) : i8range (i8wrap n) := by
  unfold i8range i8wrap
  constructor <;> omega

theorem i8wrap_eq_self (n : Int) (h1 : -128 ≤ n) (h2 : n ≤ 127) : i8wrap n = n := by
  unfold i8wrap
  omega

/-- `enum Direction { Up, Right, Down, Left }` (values.rs, lines 129-135). -/
inductive Direction where
  | Up
  | Right
  | Down
  | Left
deriving DecidableEq

/-- `Direction::clockwise` (values.rs, lines 146-153). -/
def Direction.clockwise : Direction → Direction
  | .Up => .Right
  | .Right => .Down
  | .Down => .Left
  | .Left => .Up

/-- `Direction::anti_clockwise` (values.rs, lines 155-162). -/
def Direction.anti_clockwise : Direction → Direction
  | .Up => .Left
  | .Right => .Up
  | .Down => .Right
  | .Left => .Down

/-- The opposite cardinal direction. Not a function of the source: it is the
vocabulary of the spec's round-trip property ("opposite(Up)=Down,
opposite(Left)=Right"). -/
def Direction.opposite : Direction → Direction
  | .Up => .Down
  | .Down => .Up
  | .Left => .Right
  | .Right => .Left

/-- `struct GridPosition { x: i8, y: i8 }` (values.rs, lines 8-12), coordinates
embedded as `Int` under the `i8wrap` discipline. -/
structure GridPosition where
  x : Int
  y : Int
deriving DecidableEq

/-- `GridPosition::new` (values.rs, lines 59-64). -/
def GridPosition.new (x y : Int) : GridPosition := ⟨x, y⟩

/-- `GridPosition::offset` (values.rs, lines 66-73): the source adds or
subtracts 1 on an `i8` coordinate; the wrap makes the machine arithmetic
explicit. -/
def GridPosition.offset (p : GridPosition) (direction : Direction) : GridPosition :=
  match direction with
  | .Up => ⟨p.x, i8wrap (p.y + 1)⟩
  | .Down => ⟨p.x, i8wrap (p.y - 1)⟩
  | .Left => ⟨i8wrap (p.x - 1), p.y⟩
  | .Right => ⟨i8wrap (p.x + 1), p.y⟩

/-- `enum Color { Blue, Red, Green, Yellow }` (values.rs, lines 270-276). -/
inductive Color where
  | Blue
  | Red
  | Green
  | Yellow
deriving DecidableEq

/-- `struct Block { id: Uuid, color: Color, breaker: bool }` (values.rs,
lines 79-84); the UUID is embedded as its `Nat` identity token. -/
structure Block where
  id : Nat
  color : Color
  breaker : Bool
deriving DecidableEq

/-- `Block::new` (values.rs, lines 89-95): `Uuid::new_v4()` is embedded as
drawing the current token `g` from the threaded supply and advancing it. -/
def Block.new (g : Nat) (color : Color) (breaker : Bool) : Block × Nat :=
  (⟨g, color, breaker⟩, g + 1)

/-- `impl PartialEq for Block` (values.rs, lines 117-121): `self.id == other.id`. -/
def Block.eq (a b : Block) : Bool := a.id == b.id

/-- `impl Hash for Block` (values.rs, lines 123-127): the hasher is fed exactly
`self.id`, so the hash input is the identity token alone. -/
def Block.hashInput (b : Block) : Nat := b.id

/-- `Block::to_texture_name` (values.rs, lines 97-113). -/
def Block.to_texture_name (b : Block) : String :=
  if b.breaker then
    match b.color with
    | .Blue => "element_blue_polygon.png"
    | .Red => "element_red_polygon.png"
    | .Green => "element_green_polygon.png"
    | .Yellow => "element_yellow_polygon.png"
  else
    match b.color with
    | .Blue => "element_blue_square.png"
    | .Red => "element_red_square.png"
    | .Green => "element_green_square.png"
    | .Yellow => "element_yellow_square.png"

/-- The eight texture literals of `Block::to_texture_name`, breaker row first,
in the source's match order. -/
def textureNames : List String :=
  [ "element_blue_polygon.png", "element_red_polygon.png",
    "element_green_polygon.png", "element_yellow_polygon.png",
    "element_blue_square.png", "element_red_square.png",
    "element_green_square.png", "element_yellow_square.png" ]

/-- `struct PositionedBlock { block: Block, position: GridPosition }`
(values.rs, lines 239-243). -/
structure PositionedBlock where
  block : Block
  position : GridPosition
deriving DecidableEq

/-- `PositionedBlock::new` (values.rs, lines 246-251). -/
def PositionedBlock.new (block : Block) (position : GridPosition) : PositionedBlock :=
  ⟨block, position⟩

/-- `PositionedBlock::offset` (values.rs, lines 260-267). -/
def PositionedBlock.offset (pb : PositionedBlock) (direction : Direction) : PositionedBlock :=
  { pb with position := pb.position.offset direction }

/-- `struct Piece { blocks: [Block; 2], direction: Direction, position:
GridPosition }` (values.rs, lines 165-171); the two-element array is embedded
as a pair, `blocks.1` = `blocks[0]` (anchor), `blocks.2` = `blocks[1]`
(orbiting). -/
structure Piece where
  blocks : Block × Block
  direction : Direction
  position : GridPosition
deriving DecidableEq

/-- `Piece::rand` (values.rs, lines 174-187): the two drawn colors and the two
weighted breaker coin flips are parameters; the two blocks are constructed by
two successive `Block::new` calls on the threaded token supply. -/
def Piece.rand (g : Nat) (c1 c2 : Color) (br1 br2 : Bool) (x y : Int) : Piece × Nat :=
  let r1 := Block.new g c1 br1
  let r2 := Block.new r1.2 c2 br2
  (⟨(r1.1, r2.1), Direction.Up, GridPosition.new x y⟩, r2.2)

/-- `Piece::dup_to` (values.rs, lines 189-195). -/
def Piece.dup_to (p : Piece) (position : GridPosition) (direction : Direction) : Piece :=
  ⟨p.blocks, direction, position⟩

/-- `Piece::blocks` (values.rs, lines 198-209), returning the positioned blocks
bottom to top; named `blocksOut` because `blocks` is the field projection. -/
def Piece.blocksOut (p : Piece) : PositionedBlock × PositionedBlock :=
  let positions :=
    (PositionedBlock.new p.blocks.1 p.position,
     PositionedBlock.new p.blocks.2 (p.position.offset p.direction))
  match p.direction with
  | .Down => (positions.2, positions.1)
  | _ => positions

/-- `Piece::offset` (values.rs, lines 211-218). -/
def Piece.offset (p : Piece) (direction : Direction) : Piece :=
  { p with position := p.position.offset direction }

/-- `Piece::clockwise` (values.rs, lines 220-227). -/
def Piece.clockwise (p : Piece) : Piece :=
  { p with direction := p.direction.clockwise }

/-- `Piece::anti_clockwise` (values.rs, lines 229-236). -/
def Piece.anti_clockwise (p : Piece) : Piece :=
  { p with direction := p.direction.anti_clockwise }

/-- Concrete anchor block used by witnesses. -/
def sampleBlockA : Block := ⟨0, Color.Red, false⟩

/-- Concrete orbiting block used by witnesses. -/
def sampleBlockB : Block := ⟨1, Color.Blue, true⟩

/-- Concrete piece facing Down used by witnesses. -/
def samplePieceDown : Piece := ⟨(sampleBlockA, sampleBlockB), Direction.Down, ⟨3, 5⟩⟩

/-- Concrete piece facing Up used by witnesses. -/
def samplePieceUp : Piece := ⟨(sampleBlockA, sampleBlockB), Direction.Up, ⟨3, 5⟩⟩

/-- C1: for every Piece, `blocks()` returns the two positioned blocks bottom to
top: block[0] is carried at the anchor's stored position and block[1] at the
anchor position offset by the current Direction; when the Direction is Down the
returned order is [orbiting, anchor], and for Up, Left and Right it is
[anchor, orbiting]. -/
theorem claim_C1 (p : Piece) :
    (p.direction = Direction.Down →
      p.blocksOut =
        (PositionedBlock.new p.blocks.2 (p.position.offset p.direction),
         PositionedBlock.new p.blocks.1 p.position)) ∧
    (p.direction ≠ Direction.Down →
      p.blocksOut =
        (PositionedBlock.new p.blocks.1 p.position,
         PositionedBlock.new p.blocks.2 (p.position.offset p.direction))) := by
  obtain ⟨b, d, pos⟩ := p
  cases d <;> simp [Piece.blocksOut]

/-- Witness for C1, at a concrete Down-facing and a concrete Up-facing piece. -/
theorem claim_C1_witness :
    samplePieceDown.blocksOut =
      (PositionedBlock.new samplePieceDown.blocks.2
         (samplePieceDown.position.offset samplePieceDown.direction),
       PositionedBlock.new samplePieceDown.blocks.1 samplePieceDown.position) ∧
    samplePieceUp.blocksOut =
      (PositionedBlock.new samplePieceUp.blocks.1 samplePieceUp.position,
       PositionedBlock.new samplePieceUp.blocks.2
         (samplePieceUp.position.offset samplePieceUp.direction)) :=
  ⟨(claim_C1 samplePieceDown).1 rfl, (claim_C1 samplePieceUp).2 (by decide)⟩

/-- C2: Block equality and hashing depend only on the identity token assigned
at construction, never on color or breaker content: two successive
constructions with identical content compare unequal; every block equals
itself and any copy carrying the same token; equality is exactly token
equality; the hash input ignores color and breaker. -/
theorem claim_C2 :
    (∀ (g : Nat) (c : Color) (br : Bool),
      Block.eq (Block.new g c br).1 (Block.new (Block.new g c br).2 c br).1 = false) ∧
    (∀ b : Block, Block.eq b b = true) ∧
    (∀ b : Block, Block.eq b ⟨b.id, b.color, b.breaker⟩ = true) ∧
    (∀ a b : Block, Block.eq a b = (a.id == b.id)) ∧
    (∀ (i : Nat) (c c' : Color) (br br' : Bool),
      Block.hashInput ⟨i, c, br⟩ = Block.hashInput ⟨i, c', br'⟩) := by
  refine ⟨?_, ?_, ?_, fun a b => rfl, fun i c c' br br' => rfl⟩
  · intro g c br
    simp [Block.new, Block.eq]
  · intro b
    simp [Block.eq]
  · intro b
    simp [Block.eq]

/-- C3: `clockwise` and `anti_clockwise` are total, deterministic mutual
inverses, and applying `clockwise` four times is the identity. -/
theorem claim_C3 (d : Direction) :
    d.clockwise.anti_clockwise = d ∧
    d.anti_clockwise.clockwise = d ∧
    d.clockwise.clockwise.clockwise.clockwise = d := by
  cases d <;> exact ⟨rfl, rfl, rfl⟩

/-- Counterexample to C4 as stated: at the `i8` boundary y = 127, offsetting Up
does not add (0,+1) — the coordinate wraps to -128 instead of reaching 128. -/
theorem claim_C4_counterexample :
    (GridPosition.new 0 127).offset Direction.Up ≠ GridPosition.new 0 (127 + 1) ∧
    (GridPosition.new 0 127).offset Direction.Up = GridPosition.new 0 (-128) := by
  constructor <;> decide

/-- C4 (amended): `GridPosition.offset` applies the unit offset of the
direction in wrapping `i8` arithmetic — Up (0,+1), Down (0,-1), Left (-1,0),
Right (+1,0), the moved coordinate wrapped into [-128,127]; whenever the moved
coordinate stays inside the `i8` range the result is exactly the unit offset. -/
theorem claim_C4 (p : GridPosition) :
    (p.offset Direction.Up = ⟨p.x, i8wrap (p.y + 1)⟩) ∧
    (p.offset Direction.Down = ⟨p.x, i8wrap (p.y - 1)⟩) ∧
    (p.offset Direction.Left = ⟨i8wrap (p.x - 1), p.y⟩) ∧
    (p.offset Direction.Right = ⟨i8wrap (p.x + 1), p.y⟩) ∧
    (i8range (p.y + 1) → p.offset Direction.Up = ⟨p.x, p.y + 1⟩) ∧
    (i8range (p.y - 1) → p.offset Direction.Down = ⟨p.x, p.y - 1⟩) ∧
    (i8range (p.x - 1) → p.offset Direction.Left = ⟨p.x - 1, p.y⟩) ∧
    (i8range (p.x + 1) → p.offset Direction.Right = ⟨p.x + 1, p.y⟩) := by
  refine ⟨rfl, rfl, rfl, rfl, ?_, ?_, ?_, ?_⟩ <;>
    · intro h
      obtain ⟨h1, h2⟩ := h
      simp only [GridPosition.offset, GridPosition.mk.injEq, i8wrap,
        true_and, and_true]
      omega

/-- Witness for C4 (amended), at the origin where no offset wraps. -/
theorem claim_C4_witness :
    i8range (0 + 1) ∧ i8range (0 - 1) ∧
    (GridPosition.new 0 0).offset Direction.Up = ⟨0, 0 + 1⟩ ∧
    (GridPosition.new 0 0).offset Direction.Down = ⟨0, 0 - 1⟩ ∧
    (GridPosition.new 0 0).offset Direction.Left = ⟨0 - 1, 0⟩ ∧
    (GridPosition.new 0 0).offset Direction.Right = ⟨0 + 1, 0⟩ :=
  ⟨by decide, by decide,
   (claim_C4 (GridPosition.new 0 0)).2.2.2.2.1 (by decide),
   (claim_C4 (GridPosition.new 0 0)).2.2.2.2.2.1 (by decide),
   (claim_C4 (GridPosition.new 0 0)).2.2.2.2.2.2.1 (by decide),
   (claim_C4 (GridPosition.new 0 0)).2.2.2.2.2.2.2 (by decide)⟩

/-- C5: `GridPosition.offset` is total with no failure mode and no bounds
checking: for every position with `i8` coordinates, including those at the
boundary of the signed range, it returns a position whose coordinates are
again in the `i8` range (the wrapping arithmetic never faults). -/
theorem claim_C5 (p : GridPosition) (d : Direction)
    (hx : i8range p.x) (hy : i8range p.y) :
    i8range (p.offset d).x ∧ i8range (p.offset d).y := by
  cases d <;>
    simp only [GridPosition.offset] <;>
    exact ⟨by first | exact hx | exact i8wrap_mem _,
           by first | exact hy | exact i8wrap_mem _⟩

/-- Witness for C5, at the extreme corner (127, -128) of the `i8` range. -/
theorem claim_C5_witness :
    i8range (127 : Int) ∧ i8range (-128 : Int) ∧
    i8range ((GridPosition.new 127 (-128)).offset Direction.Right).x ∧
    i8range ((GridPosition.new 127 (-128)).offset Direction.Right).y := by
  refine ⟨by decide, by decide, ?_, ?_⟩
  · exact (claim_C5 (GridPosition.new 127 (-128)) Direction.Right
      (by decide) (by decide)).1
  · exact (claim_C5 (GridPosition.new 127 (-128)) Direction.Right
      (by decide) (by decide)).2

/-- C6: for every in-range GridPosition p and every Direction d, offsetting by
d and then by the opposite direction returns p. -/
theorem claim_C6 (p : GridPosition) (d : Direction)
    (hx : i8range p.x) (hy : i8range p.y) :
    (p.offset d).offset d.opposite = p := by
  obtain ⟨x, y⟩ := p
  have hx1 : -128 ≤ x := hx.1
  have hx2 : x ≤ 127 := hx.2
  have hy1 : -128 ≤ y := hy.1
  have hy2 : y ≤ 127 := hy.2
  cases d <;>
    · simp only [GridPosition.offset, Direction.opposite, GridPosition.mk.injEq,
        i8wrap, true_and, and_true]
      omega

/-- Witness for C6, offsetting Up then Down at the top boundary y = 127. -/
theorem claim_C6_witness :
    i8range (0 : Int) ∧ i8range (127 : Int) ∧
    ((GridPosition.new 0 127).offset Direction.Up).offset Direction.Up.opposite =
      GridPosition.new 0 127 :=
  ⟨by decide, by decide,
   claim_C6 (GridPosition.new 0 127) Direction.Up (by decide) (by decide)⟩

/-- C7: `dup_to(position, direction)` reuses the same two block identities as
the original piece — the blocks field is carried over unchanged, and both
blocks compare equal by identity to the originals — while only the position
and direction fields take the given new values. -/
theorem claim_C7 (p : Piece) (pos : GridPosition) (d : Direction) :
    (p.dup_to pos d).blocks = p.blocks ∧
    Block.eq (p.dup_to pos d).blocks.1 p.blocks.1 = true ∧
    Block.eq (p.dup_to pos d).blocks.2 p.blocks.2 = true ∧
    (p.dup_to pos d).position = pos ∧
    (p.dup_to pos d).direction = d := by
  refine ⟨rfl, ?_, ?_, rfl, rfl⟩ <;> simp [Block.eq, Piece.dup_to]

/-- C8: every Piece transform changes only its designated field: `offset d`
moves the anchor position one unit in d and leaves direction and blocks
unchanged; `clockwise` and `anti_clockwise` rotate only the direction and
leave position and blocks unchanged. -/
theorem claim_C8 (p : Piece) (d : Direction) :
    ((p.offset d).position = p.position.offset d ∧
     (p.offset d).direction = p.direction ∧
     (p.offset d).blocks = p.blocks) ∧
    (p.clockwise.direction = p.direction.clockwise ∧
     p.clockwise.position = p.position ∧
     p.clockwise.blocks = p.blocks) ∧
    (p.anti_clockwise.direction = p.direction.anti_clockwise ∧
     p.anti_clockwise.position = p.position ∧
     p.anti_clockwise.blocks = p.blocks) :=
  ⟨⟨rfl, rfl, rfl⟩, ⟨rfl, rfl, rfl⟩, ⟨rfl, rfl, rfl⟩⟩

/-- C9: `to_texture_name` is a pure function of (color, breaker): it ignores
the identity token, lands in a fixed list of exactly 8 pairwise-distinct
string literals, each (color, breaker) combination hits its designated
literal, and in particular (Blue, true) gives "element_blue_polygon.png" and
(Yellow, false) gives "element_yellow_square.png". -/
theorem claim_C9 :
    (∀ (i j : Nat) (c : Color) (br : Bool),
      Block.to_texture_name ⟨i, c, br⟩ = Block.to_texture_name ⟨j, c, br⟩) ∧
    (∀ b : Block, Block.to_texture_name b ∈ textureNames) ∧
    textureNames.Nodup ∧
    (∀ i : Nat,
      Block.to_texture_name ⟨i, Color.Blue, true⟩ = "element_blue_polygon.png" ∧
      Block.to_texture_name ⟨i, Color.Red, true⟩ = "element_red_polygon.png" ∧
      Block.to_texture_name ⟨i, Color.Green, true⟩ = "element_green_polygon.png" ∧
      Block.to_texture_name ⟨i, Color.Yellow, true⟩ = "element_yellow_polygon.png" ∧
      Block.to_texture_name ⟨i, Color.Blue, false⟩ = "element_blue_square.png" ∧
      Block.to_texture_name ⟨i, Color.Red, false⟩ = "element_red_square.png" ∧
      Block.to_texture_name ⟨i, Color.Green, false⟩ = "element_green_square.png" ∧
      Block.to_texture_name ⟨i, Color.Yellow, false⟩ = "element_yellow_square.png") := by
  refine ⟨?_, ?_, ?_, ?_⟩
  · intro i j c br
    cases c <;> cases br <;> rfl
  · intro b
    obtain ⟨i, c, br⟩ := b
    cases c <;> cases br <;> simp [Block.to_texture_name, textureNames]
  · decide
  · intro i
    exact ⟨rfl, rfl, rfl, rfl, rfl, rfl, rfl, rfl⟩

/-- C10: a piece built by `Piece::rand` carries two blocks with distinct
identity tokens; `offset`, `clockwise`, `anti_clockwise` and `dup_to` all
preserve that distinctness; and the two positioned blocks returned by
`blocks()` never carry the same block identity. -/
theorem claim_C10 :
    (∀ (g : Nat) (c1 c2 : Color) (br1 br2 : Bool) (x y : Int),
      Block.eq (Piece.rand g c1 c2 br1 br2 x y).1.blocks.1
        (Piece.rand g c1 c2 br1 br2 x y).1.blocks.2 = false) ∧
    (∀ (p : Piece) (d : Direction), Block.eq p.blocks.1 p.blocks.2 = false →
      Block.eq (p.offset d).blocks.1 (p.offset d).blocks.2 = false) ∧
    (∀ p : Piece, Block.eq p.blocks.1 p.blocks.2 = false →
      Block.eq p.clockwise.blocks.1 p.clockwise.blocks.2 = false) ∧
    (∀ p : Piece, Block.eq p.blocks.1 p.blocks.2 = false →
      Block.eq p.anti_clockwise.blocks.1 p.anti_clockwise.blocks.2 = false) ∧
    (∀ (p : Piece) (pos : GridPosition) (d : Direction),
      Block.eq p.blocks.1 p.blocks.2 = false →
      Block.eq (p.dup_to pos d).blocks.1 (p.dup_to pos d).blocks.2 = false) ∧
    (∀ p : Piece, Block.eq p.blocks.1 p.blocks.2 = false →
      Block.eq p.blocksOut.1.block p.blocksOut.2.block = false) := by
  refine ⟨?_, fun p d h => h, fun p h => h, fun p h => h, fun p pos d h => h, ?_⟩
  · intro g c1 c2 br1 br2 x y
    simp [Piece.rand, Block.new, Block.eq]
  · intro p h
    obtain ⟨b, d, pos⟩ := p
    simp only [Block.eq, beq_eq_false_iff_ne] at h
    cases d <;>
      · simp only [Piece.blocksOut, PositionedBlock.new, Block.eq,
          beq_eq_false_iff_ne]
        first
        | exact h
        | exact Ne.symm h

/-- Witness for C10: the concrete Down-facing sample piece has distinct block
identities, every transform keeps them distinct, and its `blocks()` output
carries two distinct identities. -/
theorem claim_C10_witness :
    Block.eq samplePieceDown.blocks.1 samplePieceDown.blocks.2 = false ∧
    Block.eq (samplePieceDown.offset Direction.Left).blocks.1
      (samplePieceDown.offset Direction.Left).blocks.2 = false ∧
    Block.eq samplePieceDown.blocksOut.1.block
      samplePieceDown.blocksOut.2.block = false :=
  ⟨by decide,
   claim_C10.2.1 samplePieceDown Direction.Left (by decide),
   claim_C10.2.2.2.2.2 samplePieceDown (by decide)⟩

end PuzzleFighter
